import Mathlib

/-!
Verification development for the churn-prediction pipeline's date-windowing
and feature-assembly logic.  The definitions below are a shallow embedding of
`src/utils.py`, `src/data_preprocessing/prepare_resiliation.py`,
`src/data_preprocessing/prepare_arret_conso.py`,
`src/data_preprocessing/prepare_clients.py`,
`src/data_preprocessing/data_processing.py`, `src/modeling/train.py` and
`src/modeling/predict.py`.
-/

/-- A calendar date: year, month (1..12), day (1..31), as held by Python
`datetime.date`. -/
structure Date where
  year : Int
  month : Int
  day : Int
deriving DecidableEq

/-- Gregorian leap-year rule, as in Python `calendar.isleap`. -/
def isLeapYear (y : Int) : Bool :=
  y % 4 == 0 && (y % 100 != 0 || y % 400 == 0)

/-- Number of days in a month, as returned by `calendar.monthrange(y, m)[1]`. -/
def daysInMonth (y m : Int) : Int :=
  if m = 2 then (if isLeapYear y then 29 else 28)
  else if m = 4 ∨ m = 6 ∨ m = 9 ∨ m = 11 then 30
  else 31

/-- Month index of a date counted from year 0 (year*12 + month-1); used to
express `dateutil.relativedelta` month arithmetic. -/
def Date.tm (d : Date) : Int := d.year * 12 + (d.month - 1)

/-- Date ordering (Python `datetime.date` comparison), phrased on the month
index and the day. -/
def Date.le (a b : Date) : Prop :=
  a.tm < b.tm ∨ (a.tm = b.tm ∧ a.day ≤ b.day)

/-- Strict date ordering. -/
def Date.lt (a b : Date) : Prop :=
  a.tm < b.tm ∨ (a.tm = b.tm ∧ a.day < b.day)

instance (a b : Date) : Decidable (Date.le a b) := by
  unfold Date.le; exact inferInstance

instance (a b : Date) : Decidable (Date.lt a b) := by
  unfold Date.lt; exact inferInstance

/-- `d + relativedelta(months=k)` (also subtraction, via negative `k`): shift
the month index by `k` and clamp the day to the target month's length. -/
def addMonths (d : Date) (k : Int) : Date :=
  let t := d.tm + k
  let y := t / 12
  let m := t % 12 + 1
  { year := y, month := m, day := min d.day (daysInMonth y m) }

/-- `d + relativedelta(days=1)`: the next calendar day. -/
def addOneDay (d : Date) : Date :=
  if d.day < daysInMonth d.year d.month then
    { d with day := d.day + 1 }
  else
    let t := d.tm + 1
    { year := t / 12, month := t % 12 + 1, day := 1 }

/-- `get_last_day_of_month` (src/utils.py): replace the day with the last day
of the date's month, via `calendar.monthrange`. -/
def get_last_day_of_month (d : Date) : Date :=
  { d with day := daysInMonth d.year d.month }

/-- `get_arret_preparation_date` (src/utils.py): month-end normalization, then
`relativedelta(months=7)` subtracted. -/
def get_arret_preparation_date (d : Date) : Date :=
  addMonths (get_last_day_of_month d) (-7)

/-- `get_resiliation_preparation_date` (src/utils.py): month-end
normalization, then `relativedelta(months=1)` subtracted. -/
def get_resiliation_preparation_date (d : Date) : Date :=
  addMonths (get_last_day_of_month d) (-1)

/-- `get_client_preparation_date` (src/utils.py): month-end normalization,
then `relativedelta(months=9)` subtracted. -/
def get_client_preparation_date (d : Date) : Date :=
  addMonths (get_last_day_of_month d) (-9)

/-- `get_prediction_start_date` (src/utils.py): `latest_date.replace(day=1)`,
the first day of the same month. -/
def get_prediction_start_date (d : Date) : Date :=
  { d with day := 1 }

/-- Shifting the month index is exact under `addMonths`. -/
theorem tm_addMonths (d : Date) (k : Int) : (addMonths d k).tm = d.tm + k := by
  simp only [addMonths, Date.tm]
  omega

/-- C9: month-end normalization is idempotent: replacing the day with the last
day of the month twice yields the same date as doing it once
(`get_last_day_of_month`, src/utils.py). -/
theorem resolve_idempotent (d : Date) :
    get_last_day_of_month (get_last_day_of_month d) = get_last_day_of_month d := rfl

/-- C3 counterexample: on the code, the resiliation preparation date for
2023-11-15 is 2023-10-30 (relativedelta keeps the day-of-month), not the
2023-10-31 stated by the claim. -/
theorem resiliation_prep_example_refuted :
    get_resiliation_preparation_date ⟨2023, 11, 15⟩ = ⟨2023, 10, 30⟩ ∧
    (⟨2023, 10, 30⟩ : Date) ≠ ⟨2023, 10, 31⟩ := by
  constructor
  · rfl
  · decide

/-- C3 (amended): the three preparation dates shift the month index of the
month-end normalization by -1, -7 and -9 months respectively; for
D = 2023-11-15 the normalization N is 2023-11-30, the resiliation as-of is
2023-10-30 (day preserved, not previous month-end), the consumption-stop as-of
is 2023-04-30 and the client as-of is 2023-02-28 (day clamped in February). -/
theorem preparation_date_offsets :
    (∀ d : Date,
        (get_resiliation_preparation_date d).tm = (get_last_day_of_month d).tm - 1 ∧
        (get_arret_preparation_date d).tm = (get_last_day_of_month d).tm - 7 ∧
        (get_client_preparation_date d).tm = (get_last_day_of_month d).tm - 9) ∧
    get_last_day_of_month ⟨2023, 11, 15⟩ = ⟨2023, 11, 30⟩ ∧
    get_resiliation_preparation_date ⟨2023, 11, 15⟩ = ⟨2023, 10, 30⟩ ∧
    get_arret_preparation_date ⟨2023, 11, 15⟩ = ⟨2023, 4, 30⟩ ∧
    get_client_preparation_date ⟨2023, 11, 15⟩ = ⟨2023, 2, 28⟩ := by
  refine ⟨fun d => ⟨?_, ?_, ?_⟩, rfl, rfl, rfl, rfl⟩
  · simpa [get_resiliation_preparation_date] using
      tm_addMonths (get_last_day_of_month d) (-1)
  · simpa [get_arret_preparation_date] using
      tm_addMonths (get_last_day_of_month d) (-7)
  · simpa [get_client_preparation_date] using
      tm_addMonths (get_last_day_of_month d) (-9)

/-- C4 counterexample: on the code, the prediction start computed from
2023-11-15 is 2023-11-01 (first day of the same month), not 2023-12-01 (first
day of the month following the month-end normalization). -/
theorem prediction_start_example_refuted :
    get_prediction_start_date ⟨2023, 11, 15⟩ = ⟨2023, 11, 1⟩ ∧
    (⟨2023, 11, 1⟩ : Date) ≠ ⟨2023, 12, 1⟩ := by
  constructor
  · rfl
  · decide

/-- C4 (amended): for every last-known date D with a valid day, the prediction
start date is the first day of D's own month, hence on or before D itself:
backward-looking, not a forward-looking date later than D's month. -/
theorem prediction_start_same_month (d : Date) (h : 1 ≤ d.day) :
    get_prediction_start_date d = ⟨d.year, d.month, 1⟩ ∧
    Date.le (get_prediction_start_date d) d := by
  refine ⟨rfl, Or.inr ⟨rfl, h⟩⟩

/-- C4 witness: the amended statement evaluated at 2023-11-15. -/
theorem prediction_start_same_month_witness :
    get_prediction_start_date ⟨2023, 11, 15⟩ = ⟨2023, 11, 1⟩ ∧
    Date.le (get_prediction_start_date ⟨2023, 11, 15⟩) ⟨2023, 11, 15⟩ :=
  prediction_start_same_month ⟨2023, 11, 15⟩ (by decide)

/-- `ResiliationPreparer.prepare_resiliation_data`
(src/data_preprocessing/prepare_resiliation.py): offsets both bounds by
`months_offset` via `relativedelta(months=...)` and passes the resulting
period, together with the scenario index, to
`processor.get_resiliation_data`.  The value is the query issued to the
data-access collaborator: (period_start, period_end, scenario). -/
def prepare_resiliation_data (start_date end_date : Date) (months_offset : Int)
    (scenario : Int) : Date × Date × Int :=
  (addMonths start_date months_offset, addMonths end_date months_offset, scenario)

/-- `ResiliationPreparer.prepare_all_resiliations`
(src/data_preprocessing/prepare_resiliation.py): the three queries issued,
in order; the source calls `prepare_resiliation_data` with `months_offset = 6`
for each of the scenarios 0, 1 and 2. -/
def prepare_all_resiliations (start_date end_date : Date) : List (Date × Date × Int) :=
  [prepare_resiliation_data start_date end_date 6 0,
   prepare_resiliation_data start_date end_date 6 1,
   prepare_resiliation_data start_date end_date 6 2]

/-- A Python runtime error surfacing in this embedding. -/
inductive PyError where
  | typeError
deriving DecidableEq

/-- `ArretConsoPreparer.prepare_arret_conso`
(src/data_preprocessing/prepare_arret_conso.py): three required parameters
`(start_date, end_date, last_date)`, no defaults; the value is the (start,
end) bounds of the query passed to `processor.get_arret_conso_data`
(`last_date` is forwarded to the processor, not used for the bounds). -/
def prepare_arret_conso_window (start_date end_date last_date : Date) : Date × Date :=
  (start_date, end_date)

/-- `ClientsPreparer.prepare_clients`
(src/data_preprocessing/prepare_clients.py): three required parameters
`(start_date, end_date, last_date)`, no defaults; the value is the (start,
end) bounds of the query passed to `processor.get_client_data`. -/
def prepare_clients_window (start_date end_date last_date : Date) : Date × Date :=
  (start_date, end_date)

/-- `ResiliationPreparer.prepare_test_data`
(src/data_preprocessing/prepare_resiliation.py): it first runs
`prepare_all_resiliations(date_res + relativedelta(days=1), last_date)`,
issuing the three resiliation test queries, and then calls
`prepare_arret_conso(date_res + relativedelta(days=1), last_date)` — two
arguments for a function with three required parameters, so Python raises
TypeError at that call.  The first component is the list of queries issued
before the abort; the second is the outcome of the call: always a TypeError,
never a test set, and no arret-conso or clients query is ever issued. -/
def prepare_test_data (date_res last_date : Date) :
    List (Date × Date × Int) × Except PyError Unit :=
  (prepare_all_resiliations (addOneDay date_res) last_date,
   Except.error PyError.typeError)

/-- Training resiliation queries built by `prepare_data`
(src/data_preprocessing/data_processing.py): `prepare_all_resiliations`
over `(start_date, get_resiliation_preparation_date(last_date))`. -/
def train_resiliation_queries (global_start last_date : Date) : List (Date × Date × Int) :=
  prepare_all_resiliations global_start (get_resiliation_preparation_date last_date)

/-- Training arret-conso window built by `prepare_data`:
`prepare_arret_conso(start_date, get_arret_preparation_date(last_date),
last_date)` — here all three required arguments are supplied. -/
def train_arret_window (global_start last_date : Date) : Date × Date :=
  prepare_arret_conso_window global_start (get_arret_preparation_date last_date) last_date

/-- Training clients window built by `prepare_data`:
`prepare_clients(start_date, get_client_preparation_date(last_date),
last_date)` — again with all three required arguments. -/
def train_clients_window (global_start last_date : Date) : Date × Date :=
  prepare_clients_window global_start (get_client_preparation_date last_date) last_date

/-- The test stage of the full pipeline: `prepare_data` passes
`date_res = get_resiliation_preparation_date(last_date)` to
`prepare_test_data`. -/
def test_stage (last_date : Date) : List (Date × Date × Int) × Except PyError Unit :=
  prepare_test_data (get_resiliation_preparation_date last_date) last_date

/-- C1: the code calls `prepare_resiliation_data` with `months_offset = 6` for
every scenario, so for global_start = 2017-01-01 and as_of = 2023-10-31 all
three queried windows are the identical [2017-07-01, 2024-04-30] — the window
starts are not strictly increasing by one month as the claim states (the
variables `resiliation_6/7/8` indicate offsets 6/7/8 were intended). -/
theorem all_resiliation_windows_identical :
    prepare_all_resiliations ⟨2017, 1, 1⟩ ⟨2023, 10, 31⟩ =
      [(⟨2017, 7, 1⟩, ⟨2024, 4, 30⟩, 0),
       (⟨2017, 7, 1⟩, ⟨2024, 4, 30⟩, 1),
       (⟨2017, 7, 1⟩, ⟨2024, 4, 30⟩, 2)] := by
  decide

/-- Reflexivity of the date order. -/
theorem Date.le_refl (a : Date) : Date.le a a := Or.inr ⟨rfl, le_rfl⟩

/-- Transitivity of the date order. -/
theorem Date.le_trans {a b c : Date} (h1 : Date.le a b) (h2 : Date.le b c) :
    Date.le a c := by
  unfold Date.le at *
  omega

/-- Strict order implies order on dates. -/
theorem Date.le_of_lt {a b : Date} (h : Date.lt a b) : Date.le a b := by
  unfold Date.lt at h
  unfold Date.le
  omega

/-- Every month has at least one day. -/
theorem one_le_daysInMonth (y m : Int) : 1 ≤ daysInMonth y m := by
  unfold daysInMonth
  split_ifs <;> omega

/-- Adding one day moves strictly forward. -/
theorem lt_addOneDay (d : Date) : Date.lt d (addOneDay d) := by
  unfold addOneDay
  split
  · exact Or.inr ⟨rfl, by show d.day < d.day + 1; omega⟩
  · refine Or.inl ?_
    unfold Date.tm
    simp only
    omega

/-- Month shifting is monotone in the date argument. -/
theorem addMonths_le_mono {a b : Date} (k : Int) (h : Date.le a b) :
    Date.le (addMonths a k) (addMonths b k) := by
  have ha := tm_addMonths a k
  have hb := tm_addMonths b k
  rcases h with h | ⟨he, hd⟩
  · exact Or.inl (by omega)
  · refine Or.inr ⟨by omega, ?_⟩
    simp only [addMonths]
    rw [he]
    exact min_le_min hd le_rfl

/-- Month shifting is monotone in the offset argument. -/
theorem addMonths_offset_mono (d : Date) {k j : Int} (h : k ≤ j) :
    Date.le (addMonths d k) (addMonths d j) := by
  rcases lt_or_eq_of_le h with hlt | rfl
  · refine Or.inl ?_
    have h1 := tm_addMonths d k
    have h2 := tm_addMonths d j
    omega
  · exact Date.le_refl _

/-- A strictly positive month offset moves strictly forward. -/
theorem lt_addMonths_pos (d : Date) {k : Int} (hk : 0 < k) :
    Date.lt d (addMonths d k) := by
  refine Or.inl ?_
  have h1 := tm_addMonths d k
  omega

/-- C2: the test stage crashes instead of returning a union: evaluated at
last-known date 2023-11-15 (resiliation as-of 2023-10-30), `prepare_test_data`
issues only the three resiliation queries over (2023-10-31, 2023-11-15)
shifted six months — i.e. (2024-04-30, 2024-05-15) — and then its
two-argument call to the three-parameter `prepare_arret_conso` raises
TypeError: no consumption-stop or client test query is ever issued and no
test set exists.  Moreover the start bound passed at the crashing call site
is one day after the resiliation as-of (2023-10-31), not one day after the
consumption-stop as-of (2023-05-01) or the client as-of (2023-03-01). -/
theorem test_stage_raises_type_error :
    test_stage ⟨2023, 11, 15⟩ =
      ([(⟨2024, 4, 30⟩, ⟨2024, 5, 15⟩, 0),
        (⟨2024, 4, 30⟩, ⟨2024, 5, 15⟩, 1),
        (⟨2024, 4, 30⟩, ⟨2024, 5, 15⟩, 2)],
       Except.error PyError.typeError) ∧
    addOneDay (get_resiliation_preparation_date ⟨2023, 11, 15⟩) = ⟨2023, 10, 31⟩ ∧
    addOneDay (get_arret_preparation_date ⟨2023, 11, 15⟩) = ⟨2023, 5, 1⟩ ∧
    addOneDay (get_client_preparation_date ⟨2023, 11, 15⟩) = ⟨2023, 3, 1⟩ := by
  refine ⟨rfl, rfl, rfl, rfl⟩

/-- C6 counterexample: for start 2023-12-01 and end 2023-01-31 (an inverted
input), `prepare_all_resiliations` still issues its first query, with period
2024-06-01 to 2023-07-31 — an inverted range reaching the data-access
collaborator, with no rejection anywhere. -/
theorem inverted_window_query_issued :
    (prepare_all_resiliations ⟨2023, 12, 1⟩ ⟨2023, 1, 31⟩).head? =
      some (⟨2024, 6, 1⟩, ⟨2023, 7, 31⟩, 0) ∧
    Date.lt (⟨2023, 7, 31⟩ : Date) ⟨2024, 6, 1⟩ := by
  decide

/-- C6 (amended): no InvalidWindow rejection exists: whatever the inputs,
`prepare_all_resiliations` issues its three queries unconditionally, and when
the end bound lies in a strictly earlier month than the start bound every one
of the three issued queries is inverted (query end strictly before query
start). -/
theorem inverted_windows_not_rejected (s e : Date) (h : e.tm < s.tm) :
    prepare_all_resiliations s e =
      [prepare_resiliation_data s e 6 0, prepare_resiliation_data s e 6 1,
       prepare_resiliation_data s e 6 2] ∧
    Date.lt (prepare_resiliation_data s e 6 0).2.1 (prepare_resiliation_data s e 6 0).1 ∧
    Date.lt (prepare_resiliation_data s e 6 1).2.1 (prepare_resiliation_data s e 6 1).1 ∧
    Date.lt (prepare_resiliation_data s e 6 2).2.1 (prepare_resiliation_data s e 6 2).1 := by
  have key : Date.lt (addMonths e 6) (addMonths s 6) := by
    refine Or.inl ?_
    have h1 := tm_addMonths s 6
    have h2 := tm_addMonths e 6
    omega
  exact ⟨rfl, key, key, key⟩

/-- C6 witness: the amended statement at start 2023-12-01, end 2023-01-31. -/
theorem inverted_windows_not_rejected_witness :
    prepare_all_resiliations ⟨2023, 12, 1⟩ ⟨2023, 1, 31⟩ =
      [prepare_resiliation_data ⟨2023, 12, 1⟩ ⟨2023, 1, 31⟩ 6 0,
       prepare_resiliation_data ⟨2023, 12, 1⟩ ⟨2023, 1, 31⟩ 6 1,
       prepare_resiliation_data ⟨2023, 12, 1⟩ ⟨2023, 1, 31⟩ 6 2] ∧
    Date.lt (prepare_resiliation_data ⟨2023, 12, 1⟩ ⟨2023, 1, 31⟩ 6 0).2.1
      (prepare_resiliation_data ⟨2023, 12, 1⟩ ⟨2023, 1, 31⟩ 6 0).1 ∧
    Date.lt (prepare_resiliation_data ⟨2023, 12, 1⟩ ⟨2023, 1, 31⟩ 6 1).2.1
      (prepare_resiliation_data ⟨2023, 12, 1⟩ ⟨2023, 1, 31⟩ 6 1).1 ∧
    Date.lt (prepare_resiliation_data ⟨2023, 12, 1⟩ ⟨2023, 1, 31⟩ 6 2).2.1
      (prepare_resiliation_data ⟨2023, 12, 1⟩ ⟨2023, 1, 31⟩ 6 2).1 :=
  inverted_windows_not_rejected ⟨2023, 12, 1⟩ ⟨2023, 1, 31⟩ (by decide)

/-- C5 counterexample: at global start 2017-01-01 and last-known date
2023-11-30 the three training resiliation windows all end at 2024-04-30,
strictly after the resiliation as-of bound 2023-10-30 — a training window
extends past its AsOfDate-derived bound. -/
theorem train_window_past_bound :
    ((train_resiliation_queries ⟨2017, 1, 1⟩ ⟨2023, 11, 30⟩).map fun q => q.2.1) =
      [⟨2024, 4, 30⟩, ⟨2024, 4, 30⟩, ⟨2024, 4, 30⟩] ∧
    get_resiliation_preparation_date ⟨2023, 11, 30⟩ = ⟨2023, 10, 30⟩ ∧
    Date.lt (⟨2023, 10, 30⟩ : Date) ⟨2024, 4, 30⟩ := by
  decide

/-- C5 (amended): the consumption-stop and client training windows end at
their AsOfDate-derived bounds, but every training resiliation window ends six
months after the resiliation bound — strictly past it; the only test windows
ever constructed are the three resiliation queries issued before
`prepare_test_data` aborts with its TypeError, and those start at or after
the resiliation bound; no consumption-stop or client test window is ever
constructed; the prediction start rule derives the first day of the
last-known date's month, at or before the month-end normalization rather
than after it; and every window actually constructed satisfies start ≤ end
provided the global start is at most the client bound and the day after the
resiliation bound is at most the last-known date. -/
theorem window_bound_invariants (gs ld : Date)
    (h1 : Date.le gs (get_client_preparation_date ld))
    (h2 : Date.le (addOneDay (get_resiliation_preparation_date ld)) ld) :
    ((train_resiliation_queries gs ld).map fun q => (q.1, q.2.1)) =
      [(addMonths gs 6, addMonths (get_resiliation_preparation_date ld) 6),
       (addMonths gs 6, addMonths (get_resiliation_preparation_date ld) 6),
       (addMonths gs 6, addMonths (get_resiliation_preparation_date ld) 6)] ∧
    Date.lt (get_resiliation_preparation_date ld)
      (addMonths (get_resiliation_preparation_date ld) 6) ∧
    (train_arret_window gs ld).2 = get_arret_preparation_date ld ∧
    (train_clients_window gs ld).2 = get_client_preparation_date ld ∧
    Date.le (train_arret_window gs ld).1 (train_arret_window gs ld).2 ∧
    Date.le (train_clients_window gs ld).1 (train_clients_window gs ld).2 ∧
    Date.le (addMonths gs 6) (addMonths (get_resiliation_preparation_date ld) 6) ∧
    (((test_stage ld).1).map fun q => (q.1, q.2.1)) =
      [(addMonths (addOneDay (get_resiliation_preparation_date ld)) 6, addMonths ld 6),
       (addMonths (addOneDay (get_resiliation_preparation_date ld)) 6, addMonths ld 6),
       (addMonths (addOneDay (get_resiliation_preparation_date ld)) 6, addMonths ld 6)] ∧
    Date.le (get_resiliation_preparation_date ld)
      (addMonths (addOneDay (get_resiliation_preparation_date ld)) 6) ∧
    Date.le (addMonths (addOneDay (get_resiliation_preparation_date ld)) 6)
      (addMonths ld 6) ∧
    (test_stage ld).2 = Except.error PyError.typeError ∧
    Date.le (get_prediction_start_date ld) (get_last_day_of_month ld) := by
  have hCA : Date.le (get_client_preparation_date ld) (get_arret_preparation_date ld) :=
    addMonths_offset_mono (get_last_day_of_month ld) (by omega)
  have hAR : Date.le (get_arret_preparation_date ld) (get_resiliation_preparation_date ld) :=
    addMonths_offset_mono (get_last_day_of_month ld) (by omega)
  have hgsA : Date.le gs (get_arret_preparation_date ld) := Date.le_trans h1 hCA
  have hgsR : Date.le gs (get_resiliation_preparation_date ld) := Date.le_trans hgsA hAR
  have hRd : Date.le (get_resiliation_preparation_date ld)
      (addOneDay (get_resiliation_preparation_date ld)) :=
    Date.le_of_lt (lt_addOneDay _)
  refine ⟨rfl, lt_addMonths_pos _ (by omega), rfl, rfl, hgsA, h1,
    addMonths_le_mono 6 hgsR, rfl,
    Date.le_trans hRd (Date.le_of_lt (lt_addMonths_pos _ (by omega))),
    addMonths_le_mono 6 h2, rfl, Or.inr ⟨rfl, one_le_daysInMonth ld.year ld.month⟩⟩

/-- C5 witness: the amended invariants at global start 2017-01-01 and
last-known date 2023-11-30. -/
theorem window_bound_invariants_witness :
    ((train_resiliation_queries ⟨2017, 1, 1⟩ ⟨2023, 11, 30⟩).map fun q => (q.1, q.2.1)) =
      [(addMonths ⟨2017, 1, 1⟩ 6, addMonths (get_resiliation_preparation_date ⟨2023, 11, 30⟩) 6),
       (addMonths ⟨2017, 1, 1⟩ 6, addMonths (get_resiliation_preparation_date ⟨2023, 11, 30⟩) 6),
       (addMonths ⟨2017, 1, 1⟩ 6, addMonths (get_resiliation_preparation_date ⟨2023, 11, 30⟩) 6)] ∧
    Date.lt (get_resiliation_preparation_date ⟨2023, 11, 30⟩)
      (addMonths (get_resiliation_preparation_date ⟨2023, 11, 30⟩) 6) ∧
    (train_arret_window ⟨2017, 1, 1⟩ ⟨2023, 11, 30⟩).2 = get_arret_preparation_date ⟨2023, 11, 30⟩ ∧
    (train_clients_window ⟨2017, 1, 1⟩ ⟨2023, 11, 30⟩).2 = get_client_preparation_date ⟨2023, 11, 30⟩ ∧
    Date.le (train_arret_window ⟨2017, 1, 1⟩ ⟨2023, 11, 30⟩).1
      (train_arret_window ⟨2017, 1, 1⟩ ⟨2023, 11, 30⟩).2 ∧
    Date.le (train_clients_window ⟨2017, 1, 1⟩ ⟨2023, 11, 30⟩).1
      (train_clients_window ⟨2017, 1, 1⟩ ⟨2023, 11, 30⟩).2 ∧
    Date.le (addMonths ⟨2017, 1, 1⟩ 6) (addMonths (get_resiliation_preparation_date ⟨2023, 11, 30⟩) 6) ∧
    (((test_stage ⟨2023, 11, 30⟩).1).map fun q => (q.1, q.2.1)) =
      [(addMonths (addOneDay (get_resiliation_preparation_date ⟨2023, 11, 30⟩)) 6,
        addMonths ⟨2023, 11, 30⟩ 6),
       (addMonths (addOneDay (get_resiliation_preparation_date ⟨2023, 11, 30⟩)) 6,
        addMonths ⟨2023, 11, 30⟩ 6),
       (addMonths (addOneDay (get_resiliation_preparation_date ⟨2023, 11, 30⟩)) 6,
        addMonths ⟨2023, 11, 30⟩ 6)] ∧
    Date.le (get_resiliation_preparation_date ⟨2023, 11, 30⟩)
      (addMonths (addOneDay (get_resiliation_preparation_date ⟨2023, 11, 30⟩)) 6) ∧
    Date.le (addMonths (addOneDay (get_resiliation_preparation_date ⟨2023, 11, 30⟩)) 6)
      (addMonths ⟨2023, 11, 30⟩ 6) ∧
    (test_stage ⟨2023, 11, 30⟩).2 = Except.error PyError.typeError ∧
    Date.le (get_prediction_start_date ⟨2023, 11, 30⟩) (get_last_day_of_month ⟨2023, 11, 30⟩) :=
  window_bound_invariants ⟨2017, 1, 1⟩ ⟨2023, 11, 30⟩ (by decide) (by decide)

/-- Modelled from the spec: the threshold `min_age` is imported from
`src.modeling`, whose module source is missing from the repository snapshot;
the value follows the analogous filter in `utils.prepare_xgb_prediction_data`
(`tenure >= 6`). -/
def min_age : ℚ := 6

/-- Modelled from the spec: the threshold `min_inactivity_months` is imported
from the missing `src.modeling` module; value from the analogous filter
`months_inactive <= 9` in `utils.prepare_xgb_prediction_data`. -/
def min_inactivity_months : ℚ := 9

/-- Modelled from the spec: the threshold `min_revenue` is imported from the
missing `src.modeling` module; value from the analogous filter
`CA_12_months >= 300` in `utils.prepare_xgb_prediction_data`. -/
def min_revenue : ℚ := 300

/-- Truncation toward zero, the semantics of a pandas `astype("int")` cast. -/
def truncateToInt (q : ℚ) : Int :=
  if 0 ≤ q then ⌊q⌋ else ⌈q⌉

/-- Round-half-to-even on rationals, the tie rule of pandas `round`. -/
def roundHalfEven (q : ℚ) : Int :=
  if q - ⌊q⌋ < 1 / 2 then ⌊q⌋
  else if 1 / 2 < q - ⌊q⌋ then ⌊q⌋ + 1
  else if ⌊q⌋ % 2 = 0 then ⌊q⌋ else ⌊q⌋ + 1

/-- Rounding to two decimal places, as `DataFrame.round(2)`. -/
def round2 (q : ℚ) : ℚ :=
  (roundHalfEven (q * 100) : ℚ) / 100

/-- A raw input record, with the columns touched by `load_data`
(src/modeling/train.py) and `load_data_for_prediction`
(src/modeling/predict.py); `tenure` may be missing. -/
structure RawRecord where
  account : String
  client_origin_code : String
  main_product : String
  business_sector : String
  workforce : String
  frequency : ℚ
  tenure : Option ℚ
  inactive_months : ℚ
  revenue_12_months : ℚ
  revenue_6_months : ℚ
  revenue_growth : ℚ
  churn : ℚ
deriving DecidableEq

/-- A record after the column drop, dtype casts and tenure fill. -/
structure TypedRecord where
  main_product : String
  business_sector : String
  workforce : String
  frequency : Int
  tenure : ℚ
  inactive_months : ℚ
  revenue_12_months : ℚ
  revenue_6_months : ℚ
  revenue_growth : ℚ
  churn : ℚ
deriving DecidableEq

/-- Modelled from the spec: the `numerical_features` column list lives in the
missing `src.modeling` module; it is modelled as the numeric, non-category
columns of the record set. -/
structure FeatureRow where
  frequency : Int
  tenure : ℚ
  inactive_months : ℚ
  revenue_12_months : ℚ
  revenue_6_months : ℚ
  revenue_growth : ℚ
deriving DecidableEq

/-- Opening steps of `load_data` (src/modeling/train.py): drop `Account` and
`CLIENT_ORIGIN_CODE`, cast `frequency` with `astype`, fill missing `tenure`
with 0. -/
def to_typed (r : RawRecord) : TypedRecord :=
  { main_product := r.main_product, business_sector := r.business_sector,
    workforce := r.workforce, frequency := truncateToInt r.frequency,
    tenure := r.tenure.getD 0, inactive_months := r.inactive_months,
    revenue_12_months := r.revenue_12_months,
    revenue_6_months := r.revenue_6_months,
    revenue_growth := r.revenue_growth, churn := r.churn }

/-- The three successive row filters of `load_data` (src/modeling/train.py,
lines 39-42). -/
def filter_stage (l : List TypedRecord) : List TypedRecord :=
  ((l.filter fun r => decide (min_age ≤ r.tenure)).filter
      fun r => decide (r.inactive_months ≤ min_inactivity_months)).filter
    fun r => decide (min_revenue ≤ r.revenue_12_months)

/-- The revenue-growth derivation of `load_data`:
`revenue_6_months / (revenue_6_months - revenue_growth) - 1` (the rational
division is total in this embedding, with a zero denominator yielding 0 where
pandas yields an infinity; the theorems below only speak about the
denominator, never about the quotient at a zero denominator). -/
def derive_revenue_growth (r : TypedRecord) : TypedRecord :=
  { r with revenue_growth :=
      r.revenue_6_months / (r.revenue_6_months - r.revenue_growth) - 1 }

/-- The `numerical_features` column selection of `load_data`. -/
def select_numerical_features (r : TypedRecord) : FeatureRow :=
  { frequency := r.frequency, tenure := r.tenure,
    inactive_months := r.inactive_months,
    revenue_12_months := r.revenue_12_months,
    revenue_6_months := r.revenue_6_months,
    revenue_growth := r.revenue_growth }

/-- The final `round(2)` of `load_data` (an int column is unchanged). -/
def round_features (r : FeatureRow) : FeatureRow :=
  { frequency := r.frequency, tenure := round2 r.tenure,
    inactive_months := round2 r.inactive_months,
    revenue_12_months := round2 r.revenue_12_months,
    revenue_6_months := round2 r.revenue_6_months,
    revenue_growth := round2 r.revenue_growth }

/-- `load_data` (src/modeling/train.py): drop, cast, fill, filter, derive,
pop the label, select the numerical features, reset the index and round;
returns the feature rows and the popped label column. -/
def load_data (records : List RawRecord) : List FeatureRow × List ℚ :=
  (((filter_stage (records.map to_typed)).map derive_revenue_growth).map
     fun r => round_features (select_numerical_features r),
   ((filter_stage (records.map to_typed)).map derive_revenue_growth).map
     fun r => r.churn)

/-- Opening steps of `load_data_for_prediction` (src/modeling/predict.py),
duplicated line for line from the training path. -/
def to_typed_for_prediction (r : RawRecord) : TypedRecord :=
  { main_product := r.main_product, business_sector := r.business_sector,
    workforce := r.workforce, frequency := truncateToInt r.frequency,
    tenure := r.tenure.getD 0, inactive_months := r.inactive_months,
    revenue_12_months := r.revenue_12_months,
    revenue_6_months := r.revenue_6_months,
    revenue_growth := r.revenue_growth, churn := r.churn }

/-- The three successive row filters of `load_data_for_prediction`
(src/modeling/predict.py, lines 35-38). -/
def filter_stage_for_prediction (l : List TypedRecord) : List TypedRecord :=
  ((l.filter fun r => decide (min_age ≤ r.tenure)).filter
      fun r => decide (r.inactive_months ≤ min_inactivity_months)).filter
    fun r => decide (min_revenue ≤ r.revenue_12_months)

/-- The revenue-growth derivation of `load_data_for_prediction`. -/
def derive_revenue_growth_for_prediction (r : TypedRecord) : TypedRecord :=
  { r with revenue_growth :=
      r.revenue_6_months / (r.revenue_6_months - r.revenue_growth) - 1 }

/-- The `numerical_features` selection of `load_data_for_prediction`. -/
def select_numerical_features_for_prediction (r : TypedRecord) : FeatureRow :=
  { frequency := r.frequency, tenure := r.tenure,
    inactive_months := r.inactive_months,
    revenue_12_months := r.revenue_12_months,
    revenue_6_months := r.revenue_6_months,
    revenue_growth := r.revenue_growth }

/-- The final `round(2)` of `load_data_for_prediction`. -/
def round_features_for_prediction (r : FeatureRow) : FeatureRow :=
  { frequency := r.frequency, tenure := round2 r.tenure,
    inactive_months := round2 r.inactive_months,
    revenue_12_months := round2 r.revenue_12_months,
    revenue_6_months := round2 r.revenue_6_months,
    revenue_growth := round2 r.revenue_growth }

/-- `load_data_for_prediction` (src/modeling/predict.py): the same pipeline
with no label pop. -/
def load_data_for_prediction (records : List RawRecord) : List FeatureRow :=
  ((filter_stage_for_prediction (records.map to_typed_for_prediction)).map
     derive_revenue_growth_for_prediction).map
    fun r => round_features_for_prediction (select_numerical_features_for_prediction r)

/-- C7: on every input record set the training path's feature matrix (label
popped) coincides with the inference path's feature matrix: the drop, cast,
fill, filter, derivation, selection and rounding steps are pairwise
equivalent. -/
theorem train_predict_feature_equivalence (records : List RawRecord) :
    (load_data records).1 = load_data_for_prediction records := rfl

/-- Membership characterization of the three successive filters. -/
theorem mem_filter_stage (l : List TypedRecord) (r : TypedRecord) :
    r ∈ filter_stage l ↔
      r ∈ l ∧ min_age ≤ r.tenure ∧ r.inactive_months ≤ min_inactivity_months ∧
        min_revenue ≤ r.revenue_12_months := by
  simp only [filter_stage, List.mem_filter, decide_eq_true_eq]
  tauto

/-- C8: the filter stage keeps exactly the rows satisfying all three
predicates (tenure at least `min_age`, inactive months at most
`min_inactivity_months`, 12-month revenue at least `min_revenue`), a missing
tenure is replaced by 0 before filtering, and no later pipeline step drops or
adds a row. -/
theorem filter_excludes_exactly_failing_rows :
    (∀ (l : List TypedRecord) (r : TypedRecord),
        r ∈ filter_stage l ↔
          r ∈ l ∧ min_age ≤ r.tenure ∧ r.inactive_months ≤ min_inactivity_months ∧
            min_revenue ≤ r.revenue_12_months) ∧
    (∀ r : RawRecord, (to_typed r).tenure = r.tenure.getD 0) ∧
    (∀ records : List RawRecord,
        ((load_data records).1).length = (filter_stage (records.map to_typed)).length) := by
  refine ⟨mem_filter_stage, fun r => rfl, ?_⟩
  intro records
  simp [load_data]

/-- A concrete record surviving all three row filters whose revenue-growth
denominator is zero. -/
def zero_denominator_record : RawRecord :=
  { account := "A1", client_origin_code := "C1", main_product := "P",
    business_sector := "S", workforce := "W", frequency := 1,
    tenure := some 12, inactive_months := 0, revenue_12_months := 1000,
    revenue_6_months := 50, revenue_growth := 50, churn := 0 }

/-- C10 counterexample: a row surviving the three filters on which the
denominator `revenue_6_months - revenue_growth` of the unguarded division is
zero. -/
theorem surviving_row_zero_denominator :
    to_typed zero_denominator_record ∈ filter_stage [to_typed zero_denominator_record] ∧
    (to_typed zero_denominator_record).revenue_6_months -
      (to_typed zero_denominator_record).revenue_growth = 0 := by
  constructor
  · rw [mem_filter_stage]
    refine ⟨List.mem_singleton_self _, ?_, ?_, ?_⟩ <;>
      norm_num [to_typed, zero_denominator_record, min_age, min_inactivity_months,
        min_revenue]
  · norm_num [to_typed, zero_denominator_record]

/-- C10 (amended): the three row filters constrain only tenure, inactive
months and 12-month revenue, so a surviving row can have
`revenue_6_months = revenue_growth` and the denominator of the unguarded
division can be zero. -/
theorem zero_denominator_reachable :
    ∃ (l : List TypedRecord) (r : TypedRecord),
      r ∈ filter_stage l ∧ r.revenue_6_months - r.revenue_growth = 0 := by
  refine ⟨[to_typed zero_denominator_record], to_typed zero_denominator_record, ?_, ?_⟩
  · rw [mem_filter_stage]
    refine ⟨List.mem_singleton_self _, ?_, ?_, ?_⟩ <;>
      norm_num [to_typed, zero_denominator_record, min_age, min_inactivity_months,
        min_revenue]
  · norm_num [to_typed, zero_denominator_record]
